import Mathlib

/-!
Shallow embedding of the schema-manager and row-operation core of `app.py`
(a Streamlit console doing dynamic-schema CRUD over SQLite).

Modelling decisions, taken from the source:
* Cell values are strings: the app stringifies form input before binding
  parameters, and condition values come from text inputs.
* A dataset's physical storage is one SQLite file holding at most one table
  named `data`; `sqlite3.connect` creates the file if absent, so the state
  maps a dataset name to `Option Table` (`none` = file exists, no `data`
  table yet; absent from the map = no file).
* SQLite names the indexes it creates automatically for column-level
  `UNIQUE` / non-INTEGER `PRIMARY KEY` constraints `sqlite_autoindex_data_N`;
  `get_columns` filters index names on the substring "unique", so this
  naming is part of the observable behaviour and is embedded.
* A single INSERT / UPDATE / bulk-append statement is atomic in SQLite
  (conflict resolution ABORT undoes the statement), and pandas `to_sql`
  wraps its inserts in one transaction with rollback on error; so each
  mutating operation either applies fully or leaves the rows unchanged.
-/

namespace DbApp

/-- The exception kinds the app can hit (sqlite3.IntegrityError on a
registry-name or constraint collision, sqlite3.OperationalError on a bad
column / missing table). The source defines no error types of its own. -/
inductive DbError where
  | duplicateName
  | constraintViolation
  | operationalError
deriving Repr, DecidableEq

/-- One column of a dataset's `data` table as recorded in the SQLite
catalog: declared name, declared type string, and the PRIMARY KEY /
UNIQUE markers `create_table` appended to its definition. -/
structure ColumnDef where
  name : String
  type : String
  isPk : Bool
  uniqueFlag : Bool
deriving Repr, DecidableEq

/-- A stored row: cell values positionally aligned with the schema. -/
abbrev Row := List String

/-- The `data` table of one dataset file: its schema, the index names in
the SQLite catalog (`PRAGMA index_list`), and its rows. -/
structure Table where
  schema : List ColumnDef
  indexes : List String
  rows : List Row
deriving Repr, DecidableEq

/-- Whole persisted state: the `database_list` registry of `main.db`
(dataset name, creation timestamp — name is the primary key) plus the
per-dataset files. -/
structure GlobalState where
  registry : List (String × String)
  files : List (String × Option Table)
deriving Repr, DecidableEq

/-- Association-list lookup by dataset name. -/
def lookupFile (fs : List (String × Option Table)) (name : String) : Option (Option Table) :=
  match fs with
  | [] => none
  | (k, v) :: rest => if k = name then some v else lookupFile rest name

/-- `sqlite3.connect('databases/{name}.db')`: opening the file creates it
when absent (empty, no `data` table yet). -/
def connect (s : GlobalState) (name : String) : GlobalState :=
  match lookupFile s.files name with
  | some _ => s
  | none => { s with files := (name, none) :: s.files }

/-- Store a new content for `name`'s file (the commit of a statement that
ran against that file). Only the entry for `name` is rewritten. -/
def setFile (s : GlobalState) (name : String) (t : Option Table) : GlobalState :=
  { s with files := s.files.map fun p => if p.1 = name then (p.1, t) else p }

/-- The column definitions `create_table` builds: `zip(columns, column_types)`
(which silently truncates to the shorter list), with `PRIMARY KEY` appended
when `primary_key` is truthy and equal to the column, and `UNIQUE` appended
when the column is in `unique_columns`. -/
def columnDefs (columns : List String) (column_types : List String)
    (primary_key : Option String) (unique_columns : List String) : List ColumnDef :=
  (columns.zip column_types).map fun p =>
    { name := p.1
      type := p.2
      -- Python truthiness: `if primary_key and col == primary_key`
      isPk := match primary_key with
              | none => false
              | some pk => !(pk = "") && p.1 = pk
      uniqueFlag := unique_columns.contains p.1 }

/-- The index names SQLite's catalog holds after the generated
`CREATE TABLE`: one automatic index per column-level UNIQUE constraint and
per non-INTEGER PRIMARY KEY (an `INTEGER PRIMARY KEY` column is the rowid
and gets no index; a column both PK and UNIQUE gets one index because
SQLite drops the duplicate implied index), named `sqlite_autoindex_data_N`
with N counting from 1 in column order. -/
def autoIndexes (defs : List ColumnDef) : List String :=
  let k := (defs.filter fun c => (c.isPk && !(c.type = "INTEGER")) || c.uniqueFlag).length
  (List.range k).map fun i => "sqlite_autoindex_data_" ++ toString (i + 1)

/-- `create_table(db_name, columns, column_types, primary_key, unique_columns)`:
connect (creating the file if needed) and run the string-built
`CREATE TABLE IF NOT EXISTS data (...)`. If a `data` table already exists
the statement is a no-op; otherwise the new empty table is created. The
function performs no validation and raises nothing. -/
def create_table (s : GlobalState) (db_name : String) (columns column_types : List String)
    (primary_key : Option String) (unique_columns : List String) : GlobalState :=
  match lookupFile (connect s db_name).files db_name with
  | some (some _) => connect s db_name
  | _ =>
      let defs := columnDefs columns column_types primary_key unique_columns
      setFile (connect s db_name) db_name
        (some { schema := defs, indexes := autoIndexes defs, rows := [] })

/-- Is `pat` a leading segment of `s`? -/
def leadsWith : List Char → List Char → Bool
  | [], _ => true
  | _ :: _, [] => false
  | a :: as, b :: bs => a = b && leadsWith as bs

/-- Does `pat` occur inside `s`? (Python's `pat in s` on strings.) -/
def occursIn (pat : List Char) : List Char → Bool
  | [] => leadsWith pat []
  | c :: rest => leadsWith pat (c :: rest) || occursIn pat rest

/-- Python substring test `pat in s`. -/
def containsSub (s pat : String) : Bool := occursIn pat.data s.data

/-- Replace every non-overlapping occurrence of `pat` (left to right) by
`rep`, with enough fuel to scan the whole text. -/
def replaceFuel (rep : List Char) : Nat → List Char → List Char → List Char
  | _, _, [] => []
  | 0, _, s => s
  | n + 1, pat, c :: rest =>
      if pat ≠ [] && leadsWith pat (c :: rest) then
        rep ++ replaceFuel rep n pat (List.drop (pat.length - 1) rest)
      else c :: replaceFuel rep n pat rest

/-- Python `s.replace(pat, rep)` (for non-empty `pat`). -/
def strReplace (s pat rep : String) : String :=
  { data := replaceFuel rep.data s.data.length pat.data s.data }

/-- `get_columns(db_name)`: connect (creating the file if absent), read
`PRAGMA table_info(data)` into (name, type, pk-flag) triples, and derive
the "unique columns" by filtering `PRAGMA index_list(data)` names on the
substring "unique" and stripping `data_` / `_unique`. A missing `data`
table makes both PRAGMAs return no rows, so the result is `([], [])` —
no exception is raised. -/
def get_columns (s : GlobalState) (db_name : String) :
    (List (String × String × Bool) × List String) × GlobalState :=
  match lookupFile (connect s db_name).files db_name with
  | some (some t) =>
      ((t.schema.map fun c => (c.name, c.type, c.isPk),
        (t.indexes.filter fun i => containsSub i "unique").map
          fun i => strReplace (strReplace i "data_" "") "_unique" ""), connect s db_name)
  | _ => (([], []), connect s db_name)

/-- `get_table_data(db_name)`: `SELECT * FROM data`. On a missing `data`
table the query raises (pandas wraps sqlite3.OperationalError
"no such table: data"); there is no NotFoundError anywhere. -/
def get_table_data (s : GlobalState) (db_name : String) :
    Except DbError (List Row) × GlobalState :=
  match lookupFile (connect s db_name).files db_name with
  | some (some t) => (.ok t.rows, connect s db_name)
  | _ => (.error .operationalError, connect s db_name)

/-- The "Create Database" button handler in `main`: INSERT the name into
the registry (its PRIMARY KEY makes a duplicate raise
sqlite3.IntegrityError, which aborts before `create_table` runs), then
call `create_table`. -/
def createDatabase (s : GlobalState) (name ts : String) (columns column_types : List String)
    (primary_key : Option String) (unique_columns : List String) :
    Except DbError Unit × GlobalState :=
  if name ∈ s.registry.map Prod.fst then
    (.error .duplicateName, s)
  else
    let s1 := { s with registry := s.registry ++ [(name, ts)] }
    (.ok (), create_table s1 name columns column_types primary_key unique_columns)

/-- The empty initial state: fresh `databases/` directory, registry table
just created, no dataset files. -/
def initState : GlobalState := { registry := [], files := [] }

/-- A concrete one-dataset state used as a test fixture: dataset "db"
with a single text column "a" and one row. -/
def demoState : GlobalState :=
  { registry := [("db", "t0")],
    files := [("db", some { schema := [⟨"a", "TEXT", false, false⟩],
                            indexes := [], rows := [["1"]] })] }

/-- Position of a column name in the schema (how SQLite resolves the
identifier spliced into the statement; `none` means
sqlite3.OperationalError "no such column"). -/
def colIndex (t : Table) (c : String) : Option Nat :=
  (t.schema.map ColumnDef.name).indexOf? c

/-- Cell of a row at a column position (rows are schema-aligned). -/
def cell (r : Row) (i : Nat) : String := r.getD i ""

/-- Does a list of values contain a duplicate? -/
def hasDup : List String → Bool
  | [] => false
  | x :: xs => xs.contains x || hasDup xs

/-- The column positions carrying a PRIMARY KEY or UNIQUE constraint. -/
def constrainedIdxs (t : Table) : List Nat :=
  ((List.range t.schema.length).zip t.schema).filterMap fun p =>
    if p.2.isPk || p.2.uniqueFlag then some p.1 else none

/-- Would storing `rows` as the table's row set violate a declared
PRIMARY KEY or UNIQUE constraint (two rows sharing a value in a
constrained column)? This is the check SQLite's ABORT conflict
resolution applies statement-atomically: on violation the whole
statement is undone. -/
def rowsViolate (t : Table) (rows : List Row) : Bool :=
  (constrainedIdxs t).any fun i => hasDup (rows.map fun r => cell r i)

/-- A table satisfies its own declared constraints (true of every table
SQLite actually stores). -/
def Table.wf (t : Table) : Prop := rowsViolate t t.rows = false

/-- The "Add Row" handler in `main`: `INSERT INTO data VALUES (...)`.
A constraint collision raises sqlite3.IntegrityError, which the handler
catches; the statement is atomic, so the rows are unchanged then. -/
def Table.insert_row (t : Table) (r : Row) : Except DbError Unit × Table :=
  if rowsViolate t (t.rows ++ [r]) then (.error .constraintViolation, t)
  else (.ok (), { t with rows := t.rows ++ [r] })

/-- `delete_rows(db_name, condition_col, condition_val)`:
`DELETE FROM data WHERE {condition_col} = ?`, returning `cursor.rowcount`
(the number of deleted rows). An unknown condition column makes the
statement raise sqlite3.OperationalError, which `delete_rows` does not
catch. -/
def Table.delete_rows (t : Table) (condition_col condition_val : String) :
    Except DbError (Nat × Table) :=
  match colIndex t condition_col with
  | none => .error .operationalError
  | some ci =>
      let kept := t.rows.filter fun r => !(cell r ci = condition_val)
      .ok (t.rows.length - kept.length, { t with rows := kept })

/-- `update_row(db_name, condition_col, condition_val, update_col, update_val)`:
`UPDATE data SET {update_col} = ? WHERE {condition_col} = ?`. It returns
`cursor.rowcount` (every matched row counts as changed), and catches both
sqlite3.IntegrityError (constraint collision: the atomic statement is
undone) and sqlite3.OperationalError (bad column), returning 0 in either
case. -/
def Table.update_row (t : Table) (condition_col condition_val update_col update_val : String) :
    Nat × Table :=
  match colIndex t condition_col, colIndex t update_col with
  | some ci, some ui =>
      let newRows := t.rows.map fun r => if cell r ci = condition_val then r.set ui update_val else r
      if rowsViolate t newRows then (0, t)
      else ((t.rows.filter fun r => cell r ci = condition_val).length, { t with rows := newRows })
  | _, _ => (0, t)

/-- `bulk_import_data(db_name, df)`: pandas `to_sql('data', ..., append)`
runs all the inserts in one transaction and rolls back on error, and
`bulk_import_data` catches sqlite3.IntegrityError returning False; so the
call appends every row or none. Rows are taken schema-aligned (a frame
whose columns disagree with the table is outside every claim). -/
def Table.bulk_import (t : Table) (dfRows : List Row) : Bool × Table :=
  let rows1 := t.rows ++ dfRows
  if rowsViolate t rows1 then (false, t)
  else (true, { t with rows := rows1 })

/-- `delete_rows` at the state level: connect to the dataset's file and
run the statement there. A missing `data` table raises
sqlite3.OperationalError (uncaught in the source). -/
def delete_rows_g (s : GlobalState) (db_name condition_col condition_val : String) :
    Except DbError Nat × GlobalState :=
  match lookupFile (connect s db_name).files db_name with
  | some (some t) =>
      match t.delete_rows condition_col condition_val with
      | .ok (n, t1) => (.ok n, setFile (connect s db_name) db_name (some t1))
      | .error e => (.error e, connect s db_name)
  | _ => (.error .operationalError, connect s db_name)

/-- `update_row` at the state level. A missing `data` table raises
sqlite3.OperationalError, which `update_row` catches, returning 0. -/
def update_row_g (s : GlobalState)
    (db_name condition_col condition_val update_col update_val : String) :
    Nat × GlobalState :=
  match lookupFile (connect s db_name).files db_name with
  | some (some t) =>
      ((t.update_row condition_col condition_val update_col update_val).1,
       setFile (connect s db_name) db_name
         (some (t.update_row condition_col condition_val update_col update_val).2))
  | _ => (0, connect s db_name)

/-- `bulk_import_data` at the state level. (On a missing `data` table
pandas would create one from the frame; no claim exercises that branch,
and like every branch here it touches only this dataset's file.) -/
def bulk_import_g (s : GlobalState) (db_name : String) (dfRows : List Row) :
    Bool × GlobalState :=
  match lookupFile (connect s db_name).files db_name with
  | some (some t) =>
      ((t.bulk_import dfRows).1,
       setFile (connect s db_name) db_name (some (t.bulk_import dfRows).2))
  | _ => (false, connect s db_name)

/-! ### Helper lemmas on the state operations -/

theorem lookupFile_nil (name : String) : lookupFile [] name = none := rfl

theorem lookupFile_cons (k : String) (v : Option Table) (rest : List (String × Option Table))
    (name : String) :
    lookupFile ((k, v) :: rest) name = if k = name then some v else lookupFile rest name := rfl

theorem connect_registry (s : GlobalState) (name : String) :
    (connect s name).registry = s.registry := by
  unfold connect
  cases lookupFile s.files name <;> rfl

theorem setFile_registry (s : GlobalState) (name : String) (t : Option Table) :
    (setFile s name t).registry = s.registry := rfl

theorem lookupFile_map_set (fs : List (String × Option Table)) (name : String) (t : Option Table) :
    lookupFile (fs.map fun p => if p.1 = name then (p.1, t) else p) name
      = (lookupFile fs name).map fun _ => t := by
  induction fs with
  | nil => rfl
  | cons p rest ih =>
      obtain ⟨k, v⟩ := p
      by_cases hk : k = name
      · subst hk
        simp [lookupFile_cons, ih]
      · simp [lookupFile_cons, hk, ih]

theorem lookupFile_map_set_ne (fs : List (String × Option Table)) (name m : String)
    (t : Option Table) (h : m ≠ name) :
    lookupFile (fs.map fun p => if p.1 = name then (p.1, t) else p) m = lookupFile fs m := by
  induction fs with
  | nil => rfl
  | cons p rest ih =>
      obtain ⟨k, v⟩ := p
      by_cases hk : k = name
      · subst hk
        have hm : ¬ k = m := fun hc => h hc.symm
        simp [lookupFile_cons, hm, ih]
      · by_cases hm : k = m
        · subst hm
          simp [lookupFile_cons, hk]
        · simp [lookupFile_cons, hk, hm, ih]

theorem lookupFile_setFile_ne (s : GlobalState) (name m : String) (t : Option Table)
    (h : m ≠ name) :
    lookupFile (setFile s name t).files m = lookupFile s.files m :=
  lookupFile_map_set_ne s.files name m t h

theorem lookupFile_connect_ne (s : GlobalState) (name m : String) (h : m ≠ name) :
    lookupFile (connect s name).files m = lookupFile s.files m := by
  unfold connect
  cases hv : lookupFile s.files name with
  | some v => rfl
  | none =>
      have hnm : ¬ name = m := fun hc => h hc.symm
      simp [lookupFile_cons, hnm]

theorem lookupFile_setFile (s : GlobalState) (name : String) (t : Option Table) :
    lookupFile (setFile s name t).files name = (lookupFile s.files name).map fun _ => t :=
  lookupFile_map_set s.files name t

theorem connect_of_absent (s : GlobalState) (name : String)
    (h : lookupFile s.files name = none) :
    connect s name = { s with files := (name, none) :: s.files } := by
  unfold connect
  rw [h]

theorem connect_of_present (s : GlobalState) (name : String) (v : Option Table)
    (h : lookupFile s.files name = some v) :
    connect s name = s := by
  unfold connect
  rw [h]

theorem lookupFile_cons_self (k : String) (v : Option Table)
    (rest : List (String × Option Table)) :
    lookupFile ((k, v) :: rest) k = some v := by
  rw [lookupFile_cons, if_pos rfl]

/-- After connecting, the name always has a file. -/
theorem lookupFile_connect_self (s : GlobalState) (name : String) :
    lookupFile (connect s name).files name
      = some ((lookupFile s.files name).getD none) := by
  unfold connect
  cases hv : lookupFile s.files name with
  | some v => rw [hv]; rfl
  | none => exact lookupFile_cons_self name none s.files

/-! ### Claim C1 -/

/-- C1: creation followed by introspection is claimed to round-trip the
column names, declared types, primary-key flag and the unique-column set.
Evaluating the code at the spec's own round-trip example (`id INTEGER`
primary key, `name TEXT` unique) shows names, types and the primary-key
flag do round-trip, but the unique set comes back empty instead of
`["name"]`: SQLite names the automatic index for the UNIQUE constraint
`sqlite_autoindex_data_1`, which never contains the substring "unique"
that `get_columns` filters on. -/
theorem C1_unique_set_lost_on_introspection :
    (createDatabase initState "db1" "t0" ["id", "name"] ["INTEGER", "TEXT"]
        (some "id") ["name"]).1 = .ok () ∧
    (get_columns (createDatabase initState "db1" "t0" ["id", "name"] ["INTEGER", "TEXT"]
        (some "id") ["name"]).2 "db1").1
      = ([("id", "INTEGER", true), ("name", "TEXT", false)], []) := by
  exact ⟨rfl, by decide⟩

/-! ### Claim C2 -/

/-- C2: registering a dataset name already present in the registry fails
with the duplicate-name error (the registry INSERT hits the name's
PRIMARY KEY first), `create_table` never runs, and the whole state —
registry and every dataset file — is returned unchanged. -/
theorem C2_duplicate_registration_rejected (s : GlobalState) (name ts : String)
    (columns column_types : List String) (primary_key : Option String)
    (unique_columns : List String)
    (h : name ∈ s.registry.map Prod.fst) :
    createDatabase s name ts columns column_types primary_key unique_columns
      = (.error .duplicateName, s) := by
  simp [createDatabase, h]

/-- C2 witness: a concrete state with "db1" registered rejects a second
registration of "db1" and is left exactly as it was. -/
theorem C2_duplicate_registration_rejected_witness :
    ("db1" ∈ (({ registry := [("db1", "t0")], files := [] } : GlobalState)).registry.map Prod.fst) ∧
    createDatabase { registry := [("db1", "t0")], files := [] } "db1" "t1" ["x"] ["TEXT"] none []
      = (.error .duplicateName, { registry := [("db1", "t0")], files := [] }) :=
  ⟨by decide,
   C2_duplicate_registration_rejected { registry := [("db1", "t0")], files := [] }
     "db1" "t1" ["x"] ["TEXT"] none [] (by decide)⟩

/-! ### Claim C4 -/

/-- C4 counterexample: the claim says `create_table` fails with
InvalidSchemaError on a column/type count mismatch or on a primary-key or
unique reference to a non-listed column, creating no storage. The code
has no such error: with columns `["a","b"]` and the single type
`["TEXT"]` it happily creates storage for a one-column table (the `zip`
truncates), and with primary key `"zz"` and unique column `"ww"` —
neither listed — it creates the table with no markers at all. -/
theorem C4_counterexample_no_invalid_schema_error :
    (create_table initState "db2" ["a", "b"] ["TEXT"] none []).files
      = [("db2", some { schema := [{ name := "a", type := "TEXT", isPk := false, uniqueFlag := false }],
                        indexes := [], rows := [] })] ∧
    (create_table initState "db3" ["a"] ["TEXT"] (some "zz") ["ww"]).files
      = [("db3", some { schema := [{ name := "a", type := "TEXT", isPk := false, uniqueFlag := false }],
                        indexes := [], rows := [] })] := by
  exact ⟨rfl, rfl⟩

/-- C4 amended: `create_table` performs no schema validation and raises
nothing. For a dataset whose file does not yet exist it always creates
storage; the stored schema is the zip of columns with types truncated to
the shorter list, a primary-key marker appears only when the requested
primary key is the (non-empty) name of a listed column, and a unique
marker appears only on listed columns that were requested unique. -/
theorem C4_create_table_never_validates (s : GlobalState) (db_name : String)
    (columns column_types : List String) (primary_key : Option String)
    (unique_columns : List String)
    (hf : lookupFile s.files db_name = none) :
    lookupFile (create_table s db_name columns column_types primary_key unique_columns).files db_name
      = some (some { schema := columnDefs columns column_types primary_key unique_columns,
                     indexes := autoIndexes (columnDefs columns column_types primary_key unique_columns),
                     rows := [] }) ∧
    (columnDefs columns column_types primary_key unique_columns).length
      = min columns.length column_types.length ∧
    (∀ c ∈ columnDefs columns column_types primary_key unique_columns,
        c.isPk = true → primary_key = some c.name ∧ c.name ∈ columns) ∧
    (∀ c ∈ columnDefs columns column_types primary_key unique_columns,
        c.uniqueFlag = true → c.name ∈ unique_columns ∧ c.name ∈ columns) := by
  have h1 : lookupFile ((db_name, none) :: s.files) db_name = some none :=
    lookupFile_cons_self db_name none s.files
  refine ⟨?_, ?_, ?_, ?_⟩
  · unfold create_table
    rw [connect_of_absent s db_name hf]
    rw [h1]
    rw [lookupFile_setFile]
    rw [h1]
    rfl
  · simp [columnDefs]
  · intro c hc hpk
    simp only [columnDefs, List.mem_map] at hc
    obtain ⟨p, hp, rfl⟩ := hc
    cases primary_key with
    | none => simp at hpk
    | some pk =>
        simp only [Bool.and_eq_true, decide_eq_true_eq, Bool.not_eq_true'] at hpk
        obtain ⟨-, hname⟩ := hpk
        subst hname
        exact ⟨rfl, (List.of_mem_zip hp).1⟩
  · intro c hc hu
    simp only [columnDefs, List.mem_map] at hc
    obtain ⟨p, hp, rfl⟩ := hc
    exact ⟨List.mem_of_elem_eq_true hu, (List.of_mem_zip hp).1⟩

/-! ### Claim C5 -/

/-- C5 counterexample: introspecting the never-registered name "ghost" on
the empty state is claimed to fail with NotFoundError; instead
`get_columns` returns the result `([], [])` (both PRAGMAs are empty on a
missing table) — and `sqlite3.connect` has even created an empty storage
file for the name as a side effect. -/
theorem C5_counterexample_no_not_found_error :
    (get_columns initState "ghost").1 = ([], []) ∧
    (get_columns initState "ghost").2.files = [("ghost", none)] := by
  exact ⟨rfl, rfl⟩

/-- C5 amended: `get_columns` never consults the registry and raises no
error of any kind: on a dataset whose storage file is absent (connect
creates it) or whose file lacks a `data` table, it returns the empty
column list and empty unique set. `get_table_data` on the same states
raises a plain sqlite3.OperationalError ("no such table"), not a
NotFoundError — the code defines no NotFoundError at all. -/
theorem C5_missing_dataset_returns_empty (s : GlobalState) (db_name : String)
    (h : lookupFile s.files db_name = none ∨ lookupFile s.files db_name = some none) :
    (get_columns s db_name).1 = ([], []) ∧
    (get_table_data s db_name).1 = .error .operationalError := by
  cases h with
  | inl h =>
      unfold get_columns get_table_data
      rw [connect_of_absent s db_name h]
      rw [lookupFile_cons_self db_name none s.files]
      exact ⟨rfl, rfl⟩
  | inr h =>
      unfold get_columns get_table_data
      rw [connect_of_present s db_name none h]
      rw [h]
      exact ⟨rfl, rfl⟩

/-! ### Helper lemmas on rows and constraints -/

theorem hasDup_append_of_mem (l : List String) (a : String) (h : a ∈ l) :
    hasDup (l ++ [a]) = true := by
  induction l with
  | nil => cases h
  | cons x xs ih =>
      cases h with
      | head =>
          have hx : (xs ++ [a]).contains a = true :=
            List.elem_eq_true_of_mem (List.mem_append_right xs (List.mem_singleton_self a))
          simp [hasDup, hx]
      | tail _ hmem => simp [hasDup, ih hmem]

theorem map_update_no_match (rows : List Row) (ci ui : Nat) (cval uval : String)
    (h : ∀ r ∈ rows, ¬ cell r ci = cval) :
    (rows.map fun r => if cell r ci = cval then r.set ui uval else r) = rows := by
  have h1 : (rows.map fun r => if cell r ci = cval then r.set ui uval else r)
      = rows.map id := List.map_congr_left fun r hr => if_neg (h r hr)
  rw [h1, List.map_id]

theorem filter_no_match (rows : List Row) (ci : Nat) (cval : String)
    (h : ∀ r ∈ rows, ¬ cell r ci = cval) :
    (rows.filter fun r => cell r ci = cval) = [] := by
  rw [List.filter_eq_nil_iff]
  intro r hr
  simpa using h r hr

theorem update_row_eq (t : Table) (ccol cval ucol uval : String) (ci ui : Nat)
    (hc : colIndex t ccol = some ci) (hu : colIndex t ucol = some ui) :
    t.update_row ccol cval ucol uval
      = if rowsViolate t (t.rows.map fun r => if cell r ci = cval then r.set ui uval else r)
        then (0, t)
        else ((t.rows.filter fun r => cell r ci = cval).length,
              { t with rows := t.rows.map fun r => if cell r ci = cval then r.set ui uval else r }) := by
  unfold Table.update_row
  rw [hc, hu]

theorem length_sub_filter_not (l : List Row) (p : Row → Bool) :
    l.length - (l.filter fun r => !(p r)).length = (l.filter p).length := by
  induction l with
  | nil => rfl
  | cons r rest ih =>
      have hle := List.length_filter_le (fun r => !(p r)) rest
      by_cases h : p r = true
      · simp [List.filter_cons, h]
        omega
      · simp [List.filter_cons, h]
        omega

/-! ### Claim C3 -/

/-- C3: `bulk_import_data` is all-or-nothing. When appending the batch
violates no declared primary-key or unique constraint, the call reports
success and the row count grows by exactly the batch size; when any row
of the batch collides, the call reports failure and the table — row set
included — is exactly the one from before the call. -/
theorem C3_bulk_append_atomic (t : Table) (dfRows : List Row) :
    (rowsViolate t (t.rows ++ dfRows) = false →
      t.bulk_import dfRows = (true, { t with rows := t.rows ++ dfRows }) ∧
      (t.bulk_import dfRows).2.rows.length = t.rows.length + dfRows.length) ∧
    (rowsViolate t (t.rows ++ dfRows) = true →
      t.bulk_import dfRows = (false, t)) := by
  constructor
  · intro h
    constructor
    · simp [Table.bulk_import, h]
    · simp [Table.bulk_import, h]
  · intro h
    simp [Table.bulk_import, h]

/-- C3 witness: on a table with a primary-key column holding row "1",
importing the clean batch ["2"], ["3"] succeeds and grows the row count
from 1 to 3, while importing ["2"], ["2"] (an in-batch collision) fails
and leaves the table unchanged. -/
theorem C3_bulk_append_atomic_witness :
    (Table.bulk_import
        { schema := [⟨"a", "TEXT", true, false⟩], indexes := [], rows := [["1"]] }
        [["2"], ["3"]]
      = (true, { schema := [⟨"a", "TEXT", true, false⟩], indexes := [],
                 rows := [["1"], ["2"], ["3"]] }) ∧
     (Table.bulk_import
        { schema := [⟨"a", "TEXT", true, false⟩], indexes := [], rows := [["1"]] }
        [["2"], ["3"]]).2.rows.length = 1 + 2) ∧
    Table.bulk_import
        { schema := [⟨"a", "TEXT", true, false⟩], indexes := [], rows := [["1"]] }
        [["2"], ["2"]]
      = (false, { schema := [⟨"a", "TEXT", true, false⟩], indexes := [], rows := [["1"]] }) :=
  ⟨(C3_bulk_append_atomic
      { schema := [⟨"a", "TEXT", true, false⟩], indexes := [], rows := [["1"]] }
      [["2"], ["3"]]).1 (by decide),
   (C3_bulk_append_atomic
      { schema := [⟨"a", "TEXT", true, false⟩], indexes := [], rows := [["1"]] }
      [["2"], ["2"]]).2 (by decide)⟩

/-! ### Claim C6 -/

/-- C6 counterexample: the claim quantifies over every dataset state and
every call, but an update that collides with a declared UNIQUE constraint
modifies none of the matching rows. On a table with plain column "a" and
unique column "u" holding rows ("1","x") and ("2","y"), the call
updateWhereEquals("a","1","u","y") matches exactly one row, yet the code
returns 0 and leaves both rows as they were (sqlite3.IntegrityError,
caught and swallowed by `update_row`). -/
theorem C6_counterexample_constraint_blocks_update :
    Table.update_row
        { schema := [⟨"a", "TEXT", false, false⟩, ⟨"u", "TEXT", false, true⟩],
          indexes := [], rows := [["1", "x"], ["2", "y"]] } "a" "1" "u" "y"
      = (0, { schema := [⟨"a", "TEXT", false, false⟩, ⟨"u", "TEXT", false, true⟩],
              indexes := [], rows := [["1", "x"], ["2", "y"]] }) ∧
    (([["1", "x"], ["2", "y"]] : List Row).filter fun r => cell r 0 = "1").length = 1 := by
  exact ⟨by decide, by decide⟩

/-- C6 amended: restricted to calls the storage engine accepts — both
referenced columns exist and the new value violates no declared
constraint — `updateWhereEquals` rewrites exactly the rows matching the
condition, a rewritten row changes only the target column, the returned
count is the number of matching rows, and a call matching no row returns
zero and leaves the table unchanged. -/
theorem C6_update_where_equals (t : Table) (ccol cval ucol uval : String) (ci ui : Nat)
    (hc : colIndex t ccol = some ci) (hu : colIndex t ucol = some ui)
    (hok : rowsViolate t
        (t.rows.map fun r => if cell r ci = cval then r.set ui uval else r) = false) :
    t.update_row ccol cval ucol uval
      = ((t.rows.filter fun r => cell r ci = cval).length,
         { t with rows := t.rows.map fun r => if cell r ci = cval then r.set ui uval else r }) ∧
    (∀ (r : Row) (j : Nat), j ≠ ui → cell (r.set ui uval) j = cell r j) ∧
    ((∀ r ∈ t.rows, ¬ cell r ci = cval) → t.update_row ccol cval ucol uval = (0, t)) := by
  have hmain : t.update_row ccol cval ucol uval
      = ((t.rows.filter fun r => cell r ci = cval).length,
         { t with rows := t.rows.map fun r => if cell r ci = cval then r.set ui uval else r }) := by
    rw [update_row_eq t ccol cval ucol uval ci ui hc hu]
    simp [hok]
  refine ⟨hmain, ?_, ?_⟩
  · intro r j hj
    simp [cell, List.getD, List.getElem?_set_ne (Ne.symm hj)]
  · intro hnone
    rw [hmain, map_update_no_match t.rows ci ui cval uval hnone,
        filter_no_match t.rows ci cval hnone]
    rfl

/-- C6 witness: on a table with columns "a" and "b" and rows ("1","x"),
("2","y"), ("1","z"), updating b to "w" where a = "1" rewrites exactly
the two matching rows and returns 2; the no-match part is witnessed via
the same theorem's third conjunct on value "9". -/
theorem C6_update_where_equals_witness :
    colIndex { schema := [⟨"a", "TEXT", false, false⟩, ⟨"b", "TEXT", false, false⟩],
               indexes := [], rows := [["1", "x"], ["2", "y"], ["1", "z"]] } "a" = some 0 ∧
    Table.update_row
        { schema := [⟨"a", "TEXT", false, false⟩, ⟨"b", "TEXT", false, false⟩],
          indexes := [], rows := [["1", "x"], ["2", "y"], ["1", "z"]] } "a" "1" "b" "w"
      = (2, { schema := [⟨"a", "TEXT", false, false⟩, ⟨"b", "TEXT", false, false⟩],
              indexes := [], rows := [["1", "w"], ["2", "y"], ["1", "w"]] }) ∧
    Table.update_row
        { schema := [⟨"a", "TEXT", false, false⟩, ⟨"b", "TEXT", false, false⟩],
          indexes := [], rows := [["1", "x"], ["2", "y"], ["1", "z"]] } "a" "9" "b" "w"
      = (0, { schema := [⟨"a", "TEXT", false, false⟩, ⟨"b", "TEXT", false, false⟩],
              indexes := [], rows := [["1", "x"], ["2", "y"], ["1", "z"]] }) := by
  refine ⟨by decide, ?_, ?_⟩
  · have h := (C6_update_where_equals
        { schema := [⟨"a", "TEXT", false, false⟩, ⟨"b", "TEXT", false, false⟩],
          indexes := [], rows := [["1", "x"], ["2", "y"], ["1", "z"]] }
        "a" "1" "b" "w" 0 1 (by decide) (by decide) (by decide)).1
    rw [h]
    decide
  · exact (C6_update_where_equals
        { schema := [⟨"a", "TEXT", false, false⟩, ⟨"b", "TEXT", false, false⟩],
          indexes := [], rows := [["1", "x"], ["2", "y"], ["1", "z"]] }
        "a" "9" "b" "w" 0 1 (by decide) (by decide) (by decide)).2.2 (by decide)

/-! ### Claim C7 -/

/-- C7: `deleteWhereEquals` removes exactly the rows whose condition
column equals the value, returns their count, and is idempotent: run
again on the resulting table it returns 0 and removes nothing. -/
theorem C7_delete_where_equals (t : Table) (ccol cval : String) (ci : Nat)
    (hc : colIndex t ccol = some ci) :
    t.delete_rows ccol cval
      = .ok ((t.rows.filter fun r => cell r ci = cval).length,
             { t with rows := t.rows.filter fun r => !(cell r ci = cval) }) ∧
    Table.delete_rows { t with rows := t.rows.filter fun r => !(cell r ci = cval) } ccol cval
      = .ok (0, { t with rows := t.rows.filter fun r => !(cell r ci = cval) }) := by
  have hred : ∀ t1 : Table, colIndex t1 ccol = some ci →
      t1.delete_rows ccol cval
        = .ok (t1.rows.length - (t1.rows.filter fun r => !(cell r ci = cval)).length,
               { t1 with rows := t1.rows.filter fun r => !(cell r ci = cval) }) := by
    intro t1 hc1
    unfold Table.delete_rows
    rw [hc1]
  constructor
  · rw [hred t hc, length_sub_filter_not t.rows fun r => cell r ci = cval]
  · have hkeep : ((t.rows.filter fun r => !(cell r ci = cval)).filter
        fun r => !(cell r ci = cval)) = t.rows.filter fun r => !(cell r ci = cval) := by
      rw [List.filter_eq_self]
      intro r hr
      exact @List.of_mem_filter Row (fun r => !decide (cell r ci = cval)) r t.rows hr
    rw [hred { t with rows := t.rows.filter fun r => !(cell r ci = cval) } hc]
    simp [hkeep]

/-- C7 witness: deleting a = "1" from rows ["1"], ["2"], ["1"] removes the
two matching rows, and an immediate second identical call returns 0 and
changes nothing. -/
theorem C7_delete_where_equals_witness :
    colIndex { schema := [⟨"a", "TEXT", false, false⟩], indexes := [],
               rows := [["1"], ["2"], ["1"]] } "a" = some 0 ∧
    Table.delete_rows
        { schema := [⟨"a", "TEXT", false, false⟩], indexes := [],
          rows := [["1"], ["2"], ["1"]] } "a" "1"
      = .ok (2, { schema := [⟨"a", "TEXT", false, false⟩], indexes := [], rows := [["2"]] }) ∧
    Table.delete_rows
        { schema := [⟨"a", "TEXT", false, false⟩], indexes := [], rows := [["2"]] } "a" "1"
      = .ok (0, { schema := [⟨"a", "TEXT", false, false⟩], indexes := [], rows := [["2"]] }) := by
  have h := C7_delete_where_equals
      { schema := [⟨"a", "TEXT", false, false⟩], indexes := [], rows := [["1"], ["2"], ["1"]] }
      "a" "1" 0 (by decide)
  exact ⟨by decide, h.1.trans (by rfl), h.2.trans (by rfl)⟩

/-- C4 witness: the amended theorem applied to a concrete mismatched
request (two columns, one type, primary key "zz" and unique column "ww",
none of them listed): storage is still created, with the truncated
one-column schema and no constraint markers. -/
theorem C4_create_table_never_validates_witness :
    lookupFile initState.files "w4" = none ∧
    (lookupFile (create_table initState "w4" ["a", "b"] ["TEXT"] (some "zz") ["ww"]).files "w4"
        = some (some { schema := [{ name := "a", type := "TEXT", isPk := false, uniqueFlag := false }],
                       indexes := [], rows := [] }) ∧
     (columnDefs ["a", "b"] ["TEXT"] (some "zz") ["ww"]).length = 1 ∧
     (∀ c ∈ columnDefs ["a", "b"] ["TEXT"] (some "zz") ["ww"], c.isPk = true →
        (some "zz" : Option String) = some c.name ∧ c.name ∈ ["a", "b"]) ∧
     (∀ c ∈ columnDefs ["a", "b"] ["TEXT"] (some "zz") ["ww"], c.uniqueFlag = true →
        c.name ∈ ["ww"] ∧ c.name ∈ ["a", "b"])) :=
  ⟨rfl, C4_create_table_never_validates initState "w4" ["a", "b"] ["TEXT"] (some "zz") ["ww"] rfl⟩

/-- C5 witness: the amended theorem applied to the empty state and the
unregistered name "w5". -/
theorem C5_missing_dataset_returns_empty_witness :
    (lookupFile initState.files "w5" = none ∨ lookupFile initState.files "w5" = some none) ∧
    ((get_columns initState "w5").1 = ([], []) ∧
     (get_table_data initState "w5").1 = .error .operationalError) :=
  ⟨Or.inl rfl, C5_missing_dataset_returns_empty initState "w5" (Or.inl rfl)⟩

/-! ### Claim C8 -/

/-- C8: inserting a single row that collides with an existing row on a
declared primary-key or unique column fails with the constraint-violation
error (sqlite3.IntegrityError, caught by the Add Row handler) and the
table — its row count and every row — is exactly as before the call. -/
theorem C8_insert_violating_row_rejected (t : Table) (r : Row) (i : Nat)
    (hi : i ∈ constrainedIdxs t) (hex : ∃ r0 ∈ t.rows, cell r0 i = cell r i) :
    t.insert_row r = (.error .constraintViolation, t) := by
  have hv : rowsViolate t (t.rows ++ [r]) = true := by
    unfold rowsViolate
    rw [List.any_eq_true]
    refine ⟨i, hi, ?_⟩
    rw [List.map_append]
    obtain ⟨r0, hr0, hcell⟩ := hex
    have hmem : cell r i ∈ t.rows.map fun r1 => cell r1 i :=
      hcell ▸ List.mem_map_of_mem (fun r1 => cell r1 i) hr0
    have hd := hasDup_append_of_mem (t.rows.map fun r1 => cell r1 i) (cell r i) hmem
    simpa using hd
  simp [Table.insert_row, hv]

/-- C8 witness: on a one-column primary-key table holding row "1",
inserting "1" again is rejected and the table is unchanged. -/
theorem C8_insert_violating_row_rejected_witness :
    0 ∈ constrainedIdxs { schema := [⟨"a", "TEXT", true, false⟩], indexes := [], rows := [["1"]] } ∧
    (∃ r0 ∈ ([["1"]] : List Row), cell r0 0 = cell ["1"] 0) ∧
    Table.insert_row { schema := [⟨"a", "TEXT", true, false⟩], indexes := [], rows := [["1"]] } ["1"]
      = (.error .constraintViolation,
         { schema := [⟨"a", "TEXT", true, false⟩], indexes := [], rows := [["1"]] }) :=
  ⟨by decide, ⟨["1"], by decide, rfl⟩,
   C8_insert_violating_row_rejected
     { schema := [⟨"a", "TEXT", true, false⟩], indexes := [], rows := [["1"]] }
     ["1"] 0 (by decide) ⟨["1"], by decide, rfl⟩⟩

/-! ### Claim C9 -/

/-- C9: `update_row` catches the storage engine's integrity and
operational errors and returns 0 with the table untouched, so by return
value alone a constraint-violating update (first call) cannot be told
apart from an update whose condition matched no row (second call): both
return the same count, zero, and change nothing. -/
theorem C9_failed_update_reports_zero_like_no_match (t : Table)
    (c1 v1 u1 w1 c2 v2 u2 w2 : String) (ci1 ui1 ci2 : Nat)
    (hc1 : colIndex t c1 = some ci1) (hu1 : colIndex t u1 = some ui1)
    (hviol : rowsViolate t
        (t.rows.map fun r => if cell r ci1 = v1 then r.set ui1 w1 else r) = true)
    (hc2 : colIndex t c2 = some ci2)
    (hnomatch : ∀ r ∈ t.rows, ¬ cell r ci2 = v2) :
    t.update_row c1 v1 u1 w1 = (0, t) ∧
    t.update_row c2 v2 u2 w2 = (0, t) ∧
    (t.update_row c1 v1 u1 w1).1 = (t.update_row c2 v2 u2 w2).1 := by
  have h1 : t.update_row c1 v1 u1 w1 = (0, t) := by
    rw [update_row_eq t c1 v1 u1 w1 ci1 ui1 hc1 hu1]
    simp [hviol]
  have h2 : t.update_row c2 v2 u2 w2 = (0, t) := by
    cases hu2 : colIndex t u2 with
    | none =>
        unfold Table.update_row
        rw [hc2, hu2]
    | some ui2 =>
        rw [update_row_eq t c2 v2 u2 w2 ci2 ui2 hc2 hu2,
            map_update_no_match t.rows ci2 ui2 v2 w2 hnomatch,
            filter_no_match t.rows ci2 v2 hnomatch]
        split <;> rfl
  exact ⟨h1, h2, by rw [h1, h2]⟩

/-- C9 witness: on the table with plain column "a" and unique column "u"
holding ("1","x") and ("2","y"), the violating call
updateWhereEquals("a","1","u","y") and the no-match call
updateWhereEquals("a","9","u","q") both return 0 and change nothing. -/
theorem C9_failed_update_reports_zero_like_no_match_witness :
    colIndex { schema := [⟨"a", "TEXT", false, false⟩, ⟨"u", "TEXT", false, true⟩],
               indexes := [], rows := [["1", "x"], ["2", "y"]] } "a" = some 0 ∧
    rowsViolate { schema := [⟨"a", "TEXT", false, false⟩, ⟨"u", "TEXT", false, true⟩],
                  indexes := [], rows := [["1", "x"], ["2", "y"]] }
        (([["1", "x"], ["2", "y"]] : List Row).map
          fun r => if cell r 0 = "1" then r.set 1 "y" else r) = true ∧
    (∀ r ∈ ([["1", "x"], ["2", "y"]] : List Row), ¬ cell r 0 = "9") ∧
    Table.update_row { schema := [⟨"a", "TEXT", false, false⟩, ⟨"u", "TEXT", false, true⟩],
                       indexes := [], rows := [["1", "x"], ["2", "y"]] } "a" "1" "u" "y"
      = (0, { schema := [⟨"a", "TEXT", false, false⟩, ⟨"u", "TEXT", false, true⟩],
              indexes := [], rows := [["1", "x"], ["2", "y"]] }) ∧
    Table.update_row { schema := [⟨"a", "TEXT", false, false⟩, ⟨"u", "TEXT", false, true⟩],
                       indexes := [], rows := [["1", "x"], ["2", "y"]] } "a" "9" "u" "q"
      = (0, { schema := [⟨"a", "TEXT", false, false⟩, ⟨"u", "TEXT", false, true⟩],
              indexes := [], rows := [["1", "x"], ["2", "y"]] }) := by
  have h := C9_failed_update_reports_zero_like_no_match
      { schema := [⟨"a", "TEXT", false, false⟩, ⟨"u", "TEXT", false, true⟩],
        indexes := [], rows := [["1", "x"], ["2", "y"]] }
      "a" "1" "u" "y" "a" "9" "u" "q" 0 1 0
      (by decide) (by decide) (by decide) (by decide) (by decide)
  exact ⟨by decide, by decide, by decide, h.1, h.2.1⟩

/-! ### Claim C10 -/

theorem frame_core (s : GlobalState) (db_name m : String) (v : Option Table) (hm : m ≠ db_name) :
    (setFile (connect s db_name) db_name v).registry = s.registry ∧
    lookupFile (setFile (connect s db_name) db_name v).files m = lookupFile s.files m :=
  ⟨(setFile_registry (connect s db_name) db_name v).trans (connect_registry s db_name),
   (lookupFile_setFile_ne (connect s db_name) db_name m v hm).trans
     (lookupFile_connect_ne s db_name m hm)⟩

theorem frame_conn (s : GlobalState) (db_name m : String) (hm : m ≠ db_name) :
    (connect s db_name).registry = s.registry ∧
    lookupFile (connect s db_name).files m = lookupFile s.files m :=
  ⟨connect_registry s db_name, lookupFile_connect_ne s db_name m hm⟩

theorem frame_delete (s : GlobalState) (db_name c v m : String) (hm : m ≠ db_name) :
    (delete_rows_g s db_name c v).2.registry = s.registry ∧
    lookupFile (delete_rows_g s db_name c v).2.files m = lookupFile s.files m := by
  unfold delete_rows_g
  split
  · split
    · exact frame_core s db_name m _ hm
    · exact frame_conn s db_name m hm
  · exact frame_conn s db_name m hm

theorem frame_update (s : GlobalState) (db_name c v u w m : String) (hm : m ≠ db_name) :
    (update_row_g s db_name c v u w).2.registry = s.registry ∧
    lookupFile (update_row_g s db_name c v u w).2.files m = lookupFile s.files m := by
  unfold update_row_g
  split
  · exact frame_core s db_name m _ hm
  · exact frame_conn s db_name m hm

theorem frame_bulk (s : GlobalState) (db_name : String) (dfRows : List Row) (m : String)
    (hm : m ≠ db_name) :
    (bulk_import_g s db_name dfRows).2.registry = s.registry ∧
    lookupFile (bulk_import_g s db_name dfRows).2.files m = lookupFile s.files m := by
  unfold bulk_import_g
  split
  · exact frame_core s db_name m _ hm
  · exact frame_conn s db_name m hm

/-- C10: every row-level operation — delete, update, bulk import — only
ever opens and writes the named dataset's file: the registry (names and
creation timestamps) is unchanged and the stored file of every other
dataset name is unchanged, whether the operation succeeds or fails. -/
theorem C10_row_ops_touch_only_named_dataset (s : GlobalState)
    (db_name c v u w m : String) (dfRows : List Row) (hm : m ≠ db_name) :
    ((delete_rows_g s db_name c v).2.registry = s.registry ∧
      lookupFile (delete_rows_g s db_name c v).2.files m = lookupFile s.files m) ∧
    ((update_row_g s db_name c v u w).2.registry = s.registry ∧
      lookupFile (update_row_g s db_name c v u w).2.files m = lookupFile s.files m) ∧
    ((bulk_import_g s db_name dfRows).2.registry = s.registry ∧
      lookupFile (bulk_import_g s db_name dfRows).2.files m = lookupFile s.files m) :=
  ⟨frame_delete s db_name c v m hm,
   frame_update s db_name c v u w m hm,
   frame_bulk s db_name dfRows m hm⟩

/-- C10 witness: on the fixture state holding only dataset "db", a
delete, an update and a bulk import on "db" leave the registry and the
lookup of the unrelated name "other" untouched. -/
theorem C10_row_ops_touch_only_named_dataset_witness :
    ("other" ≠ "db") ∧
    (((delete_rows_g demoState "db" "a" "1").2.registry = demoState.registry ∧
      lookupFile (delete_rows_g demoState "db" "a" "1").2.files "other"
        = lookupFile demoState.files "other") ∧
     ((update_row_g demoState "db" "a" "1" "a" "2").2.registry = demoState.registry ∧
      lookupFile (update_row_g demoState "db" "a" "1" "a" "2").2.files "other"
        = lookupFile demoState.files "other") ∧
     ((bulk_import_g demoState "db" [["2"]]).2.registry = demoState.registry ∧
      lookupFile (bulk_import_g demoState "db" [["2"]]).2.files "other"
        = lookupFile demoState.files "other")) :=
  ⟨by decide,
   C10_row_ops_touch_only_named_dataset demoState "db" "a" "1" "a" "2" "other" [["2"]]
     (by decide)⟩

end DbApp
